import Mathlib

/-!
Verification of the TaskMatrix HTTP facade (src/http_server.py).

The facade reads its configuration from the environment at start, exposes
three static GET routes (`/health`, `/`, `/info`) and one POST route
(`/api/message`).  The POST handler performs a single liveness probe
(a GET against the upstream root with a 5 second timeout) and maps the
probe outcome to either an HTTP-level 503 error, a success envelope, or
-- for any unexpected exception -- a success=false envelope.

The embedding below translates the module directly.  Network behaviour
(the probe response or the exception raised by it) is an explicit
parameter of the handler; outbound network activity is modelled by a
trace function returning the list of requests the handler issues.
-/

namespace TaskMatrix

/-- A JSON value, used for the response bodies the facade produces. -/
inductive Json where
  | null : Json
  | bool (b : Bool) : Json
  | num (n : Int) : Json
  | str (s : String) : Json
  | arr (xs : List Json) : Json
  | obj (fields : List (String × Json)) : Json
  deriving Repr, BEq

/-- Service configuration: the module-level constants GRADIO_HOST,
GRADIO_PORT and HTTP_PORT of src/http_server.py, read once at start. -/
structure Config where
  GRADIO_HOST : String
  GRADIO_PORT : Int
  HTTP_PORT : Int
  deriving Repr, DecidableEq

/-- Value of a decimal digit character, `none` for a non-digit. -/
def digitVal (c : Char) : Option Nat :=
  if c.isDigit then some (c.toNat - 48) else none

/-- Parses a non-empty string of decimal digits. -/
def natOfDigits : List Char → Option Nat
  | [] => none
  | cs => cs.foldl (fun acc c =>
      match acc, digitVal c with
      | some a, some d => some (a * 10 + d)
      | _, _ => none) (some 0)

/-- The Python `int(...)` conversion on a string, for plain decimal
strings with an optional leading minus sign (the forms the facade
configuration uses); anything else raises, modelled as `none`. -/
def int_of_string (s : String) : Option Int :=
  match s.toList with
  | '-' :: cs => (natOfDigits cs).map (fun n => -(n : Int))
  | cs => (natOfDigits cs).map (fun n => (n : Int))

/-- Reads an integer environment variable with a default, as in
`int(os.environ.get(name, default))`.  A set but unparseable value makes
`int` raise, which we model as `none`. -/
def envInt (env : String → Option String) (name : String) (default : Int) :
    Option Int :=
  match env name with
  | none => some default
  | some s => int_of_string s

/-- Configuration loading from the environment (lines 17-19 of
src/http_server.py).  `none` models a startup failure of `int(...)`. -/
def configFromEnv (env : String → Option String) : Option Config :=
  match envInt env "WEB_PORT" 7861, envInt env "HTTP_PORT" 8000 with
  | some gp, some hp =>
      some { GRADIO_HOST := (env "GRADIO_HOST").getD "localhost",
             GRADIO_PORT := gp, HTTP_PORT := hp }
  | _, _ => none

/-- The upstream base URL, `f"http://{GRADIO_HOST}:{GRADIO_PORT}"`. -/
def gradio_url (cfg : Config) : String :=
  "http://" ++ cfg.GRADIO_HOST ++ ":" ++ toString cfg.GRADIO_PORT

/-- Request model of the `/api/message` endpoint (class MessageRequest):
`message` is required, `language` defaults to "English". -/
structure MessageRequest where
  message : String
  language : String := "English"
  deriving Repr, DecidableEq

/-- Response model of the `/api/message` endpoint (class MessageResponse). -/
structure MessageResponse where
  success : Bool
  reply : Option String := none
  error : Option String := none
  deriving Repr, DecidableEq

/-- Serialization of a MessageResponse by the framework: every field is
emitted, absent optionals as null. -/
def MessageResponse.toJson (r : MessageResponse) : Json :=
  .obj [("success", .bool r.success),
        ("reply", match r.reply with | none => .null | some s => .str s),
        ("error", match r.error with | none => .null | some s => .str s)]

/-- Raw JSON body of a POST request before validation: each model field
is either absent or present with a string value. -/
structure RawBody where
  message : Option String := none
  language : Option String := none
  deriving Repr, DecidableEq

/-- Framework-level validation of the request body against MessageRequest:
fails exactly when the required `message` field is absent; an omitted
`language` takes the declared default "English". -/
def parse_message_request (b : RawBody) : Option MessageRequest :=
  match b.message with
  | none => none
  | some m => some { message := m, language := b.language.getD "English" }

/-- Outcome of the liveness probe `requests.get(f"{gradio_url}/", timeout=5)`:
either a response with its status code, or a raised
`requests.exceptions.RequestException` with its text. -/
inductive ProbeResult where
  | ok (status : Int) : ProbeResult
  | requestException (msg : String) : ProbeResult
  deriving Repr, DecidableEq

/-- What the environment does to one execution of the handler body: the
probe produces a result, or some other unexpected exception is raised
during the flow (the `except Exception` arm). -/
inductive HandlerEvent where
  | probe (r : ProbeResult) : HandlerEvent
  | unexpected (msg : String) : HandlerEvent
  deriving Repr, DecidableEq

/-- Result of the send_message handler: an HTTPException escaping to the
framework (status plus detail), or a MessageResponse envelope returned
with status 200. -/
inductive SendOutcome where
  | httpError (status : Int) (detail : String) : SendOutcome
  | envelope (r : MessageResponse) : SendOutcome
  deriving Repr, DecidableEq

/-- The body of `send_message` (lines 89-117 of src/http_server.py), after
validation has produced a MessageRequest.  The request is received but
never read.  A probe status other than 200, or a RequestException, raises
HTTPException 503, which the `except HTTPException: raise` arm re-raises;
any other exception is caught and turned into a success=false envelope. -/
def send_message (cfg : Config) (_request : MessageRequest)
    (ev : HandlerEvent) : SendOutcome :=
  match ev with
  | .probe (.ok status) =>
      if status ≠ 200 then
        .httpError 503 "Gradio service not available"
      else
        .envelope { success := true,
                    reply := some ("TaskMatrix Visual ChatGPT is running. Access the Gradio interface at "
                                   ++ gradio_url cfg),
                    error := none }
  | .probe (.requestException msg) =>
      .httpError 503 ("Gradio service unavailable: " ++ msg)
  | .unexpected msg =>
      .envelope { success := false, reply := none, error := some msg }

/-- One outbound HTTP request issued by the facade. -/
structure OutboundRequest where
  method : String
  url : String
  timeout : Int
  payload : Option String
  deriving Repr, DecidableEq

/-- The single liveness probe the handler issues:
`requests.get(f"{gradio_url}/", timeout=5)`, a bare GET with no payload. -/
def probe_request (cfg : Config) : OutboundRequest :=
  { method := "GET", url := gradio_url cfg ++ "/", timeout := 5,
    payload := none }

/-- Outbound network activity of one run of the handler body: exactly the
one probe, issued unconditionally once the handler is entered. -/
def send_message_trace (cfg : Config) (_req : MessageRequest) :
    List OutboundRequest :=
  [probe_request cfg]

/-- Response of the `/health` route (lines 49-55). -/
def health_check (cfg : Config) : Json :=
  .obj [("status", .str "healthy"),
        ("service", .str "TaskMatrix API"),
        ("version", .str "1.0.0"),
        ("gradio_port", .num cfg.GRADIO_PORT),
        ("http_port", .num cfg.HTTP_PORT)]

/-- Response of the `/` route (lines 63-72). -/
def root (cfg : Config) : Json :=
  .obj [("name", .str "TaskMatrix API"),
        ("version", .str "1.0.0"),
        ("description", .str "Visual ChatGPT - Multi-Modal AI Assistant"),
        ("endpoints",
          .obj [("health", .str "/health"),
                ("message", .str "/api/message (POST)"),
                ("gradio", .str (gradio_url cfg))])]

/-- Response of the `/info` route (lines 125-138). -/
def get_info (cfg : Config) : Json :=
  .obj [("service", .str "TaskMatrix Visual ChatGPT"),
        ("version", .str "1.0.0"),
        ("gradio_host", .str cfg.GRADIO_HOST),
        ("gradio_port", .num cfg.GRADIO_PORT),
        ("http_port", .num cfg.HTTP_PORT),
        ("capabilities",
          .arr [.str "Image Captioning",
                .str "Text to Image Generation",
                .str "Visual Question Answering",
                .str "Conversation Memory",
                .str "Multi-language support"])]

/-- An inbound HTTP request to the facade. -/
structure HttpRequest where
  method : String
  path : String
  body : RawBody := {}
  deriving Repr, DecidableEq

/-- An HTTP response produced by the facade: status code and JSON body. -/
structure HttpResult where
  status : Int
  body : Json
  deriving Repr, BEq

/-- Body of the framework-level 422 response for a missing required field. -/
def validation_error_body : Json :=
  .obj [("detail",
         .arr [.obj [("type", .str "missing"),
                     ("loc", .arr [.str "body", .str "message"]),
                     ("msg", .str "Field required")]])]

/-- The routing table of the FastAPI app: dispatches a request to the
handler of its route.  Validation of the POST body happens before the
handler body runs; an HTTPException raised by the handler becomes a
response with that status and a `detail` object body. -/
def app_handle (cfg : Config) (req : HttpRequest) (ev : HandlerEvent) :
    HttpResult :=
  if req.method = "GET" ∧ req.path = "/health" then
    { status := 200, body := health_check cfg }
  else if req.method = "GET" ∧ req.path = "/" then
    { status := 200, body := root cfg }
  else if req.method = "GET" ∧ req.path = "/info" then
    { status := 200, body := get_info cfg }
  else if req.method = "POST" ∧ req.path = "/api/message" then
    match parse_message_request req.body with
    | none => { status := 422, body := validation_error_body }
    | some m =>
        match send_message cfg m ev with
        | .httpError s d => { status := s, body := .obj [("detail", .str d)] }
        | .envelope r => { status := 200, body := r.toJson }
  else
    { status := 404, body := .obj [("detail", .str "Not Found")] }

/-- Outbound network activity of one request to the facade: only the
`/api/message` handler body touches the network, and validation rejects
the request before the handler body runs. -/
def app_trace (cfg : Config) (req : HttpRequest) : List OutboundRequest :=
  if req.method = "POST" ∧ req.path = "/api/message" then
    match parse_message_request req.body with
    | none => []
    | some m => send_message_trace cfg m
  else []

/-! Helper lemmas about the dispatcher. -/

/-- The handler body of send_message never reads the validated request. -/
theorem send_message_ignores_request (cfg : Config) (r₁ r₂ : MessageRequest)
    (ev : HandlerEvent) : send_message cfg r₁ ev = send_message cfg r₂ ev := by
  cases ev with
  | probe p => cases p <;> rfl
  | unexpected m => rfl

/-- Dispatch of a POST /api/message request. -/
theorem app_handle_message (cfg : Config) (req : HttpRequest)
    (ev : HandlerEvent) (hm : req.method = "POST")
    (hp : req.path = "/api/message") :
    app_handle cfg req ev =
      match parse_message_request req.body with
      | none => { status := 422, body := validation_error_body }
      | some m =>
          match send_message cfg m ev with
          | .httpError s d =>
              { status := s, body := .obj [("detail", .str d)] }
          | .envelope r => { status := 200, body := r.toJson } := by
  have h1 : ¬ (req.method = "GET" ∧ req.path = "/health") := by
    rintro ⟨h, -⟩; rw [hm] at h; exact absurd h (by decide)
  have h2 : ¬ (req.method = "GET" ∧ req.path = "/") := by
    rintro ⟨h, -⟩; rw [hm] at h; exact absurd h (by decide)
  have h3 : ¬ (req.method = "GET" ∧ req.path = "/info") := by
    rintro ⟨h, -⟩; rw [hm] at h; exact absurd h (by decide)
  rw [app_handle, if_neg h1, if_neg h2, if_neg h3, if_pos ⟨hm, hp⟩]

/-- Outbound trace of a POST /api/message request. -/
theorem app_trace_message (cfg : Config) (req : HttpRequest)
    (hm : req.method = "POST") (hp : req.path = "/api/message") :
    app_trace cfg req =
      match parse_message_request req.body with
      | none => []
      | some m => send_message_trace cfg m := by
  rw [app_trace, if_pos ⟨hm, hp⟩]

/-- A GET request issues no outbound request at all. -/
theorem app_trace_get (cfg : Config) (req : HttpRequest)
    (hm : req.method = "GET") : app_trace cfg req = [] := by
  rw [app_trace, if_neg]
  rintro ⟨h, -⟩; rw [hm] at h; exact absurd h (by decide)

/-- Dispatch of GET /health. -/
theorem app_handle_health (cfg : Config) (req : HttpRequest)
    (ev : HandlerEvent) (hm : req.method = "GET")
    (hp : req.path = "/health") :
    app_handle cfg req ev = { status := 200, body := health_check cfg } := by
  rw [app_handle, if_pos ⟨hm, hp⟩]

/-- Dispatch of GET /. -/
theorem app_handle_root (cfg : Config) (req : HttpRequest)
    (ev : HandlerEvent) (hm : req.method = "GET") (hp : req.path = "/") :
    app_handle cfg req ev = { status := 200, body := root cfg } := by
  have h1 : ¬ (req.method = "GET" ∧ req.path = "/health") := by
    rintro ⟨-, h⟩; rw [hp] at h; exact absurd h (by decide)
  rw [app_handle, if_neg h1, if_pos ⟨hm, hp⟩]

/-- Dispatch of GET /info. -/
theorem app_handle_info (cfg : Config) (req : HttpRequest)
    (ev : HandlerEvent) (hm : req.method = "GET") (hp : req.path = "/info") :
    app_handle cfg req ev = { status := 200, body := get_info cfg } := by
  have h1 : ¬ (req.method = "GET" ∧ req.path = "/health") := by
    rintro ⟨-, h⟩; rw [hp] at h; exact absurd h (by decide)
  have h2 : ¬ (req.method = "GET" ∧ req.path = "/") := by
    rintro ⟨-, h⟩; rw [hp] at h; exact absurd h (by decide)
  rw [app_handle, if_neg h1, if_neg h2, if_pos ⟨hm, hp⟩]

/-! The claims. -/

/-- C1: a POST /api/message request whose body contains `message`, when
the liveness probe of the upstream root returns status 200, yields an
HTTP 200 response with success=true, reply the fixed string containing
the configured upstream address, and error=null. -/
theorem C1_reachable_success (cfg : Config) (req : HttpRequest) (m : String)
    (hm : req.method = "POST") (hp : req.path = "/api/message")
    (hmsg : req.body.message = some m) :
    app_handle cfg req (.probe (.ok 200)) =
      { status := 200,
        body := .obj [("success", .bool true),
          ("reply", .str ("TaskMatrix Visual ChatGPT is running. Access the Gradio interface at "
                          ++ gradio_url cfg)),
          ("error", .null)] } := by
  rw [app_handle_message cfg req _ hm hp]
  simp [parse_message_request, hmsg, send_message, MessageResponse.toJson]

/-- C1 witness: a concrete request against a concrete configuration. -/
theorem C1_reachable_success_witness :
    app_handle { GRADIO_HOST := "localhost", GRADIO_PORT := 7861, HTTP_PORT := 8000 }
        { method := "POST", path := "/api/message", body := { message := some "hi" } }
        (.probe (.ok 200)) =
      { status := 200,
        body := .obj [("success", .bool true),
          ("reply", .str "TaskMatrix Visual ChatGPT is running. Access the Gradio interface at http://localhost:7861"),
          ("error", .null)] } :=
  C1_reachable_success _ _ "hi" rfl rfl rfl

/-- C2: with `message` present, a probe that raises a connectivity error
or returns a non-200 status makes the operation fail with HTTP 503, and
the response body is a detail object, never the success envelope. -/
theorem C2_unavailable_503 (cfg : Config) (req : HttpRequest) (m : String)
    (hm : req.method = "POST") (hp : req.path = "/api/message")
    (hmsg : req.body.message = some m) (ev : HandlerEvent)
    (hev : (∃ e, ev = .probe (.requestException e)) ∨
           ∃ s, s ≠ 200 ∧ ev = .probe (.ok s)) :
    (app_handle cfg req ev).status = 503 ∧
    ∀ r : MessageResponse, (app_handle cfg req ev).body ≠ r.toJson := by
  rw [app_handle_message cfg req ev hm hp]
  rcases hev with ⟨e, rfl⟩ | ⟨s, hs, rfl⟩
  · simp [parse_message_request, hmsg, send_message, MessageResponse.toJson]
  · simp [parse_message_request, hmsg, send_message, hs, MessageResponse.toJson]

/-- C2 witness: a connection-refused probe on a concrete request. -/
theorem C2_unavailable_503_witness :
    (app_handle { GRADIO_HOST := "localhost", GRADIO_PORT := 7861, HTTP_PORT := 8000 }
        { method := "POST", path := "/api/message", body := { message := some "hi" } }
        (.probe (.requestException "connection refused"))).status = 503 ∧
    (app_handle { GRADIO_HOST := "localhost", GRADIO_PORT := 7861, HTTP_PORT := 8000 }
        { method := "POST", path := "/api/message", body := { message := some "hi" } }
        (.probe (.requestException "connection refused"))).body ≠
      MessageResponse.toJson { success := true, reply := some "x", error := none } := by
  have h := C2_unavailable_503
    { GRADIO_HOST := "localhost", GRADIO_PORT := 7861, HTTP_PORT := 8000 }
    { method := "POST", path := "/api/message", body := { message := some "hi" } }
    "hi" rfl rfl rfl _ (Or.inl ⟨"connection refused", rfl⟩)
  exact ⟨h.1, h.2 _⟩

/-- C3: with `message` present, any exception other than a validation
error or the upstream HTTPException is caught and converted into an
HTTP 200 response with success=false, reply=null and error the
exception text; it never escapes as an unhandled fault. -/
theorem C3_unexpected_degrades (cfg : Config) (req : HttpRequest)
    (m e : String) (hm : req.method = "POST")
    (hp : req.path = "/api/message") (hmsg : req.body.message = some m) :
    app_handle cfg req (.unexpected e) =
      { status := 200,
        body := .obj [("success", .bool false), ("reply", .null),
                      ("error", .str e)] } := by
  rw [app_handle_message cfg req _ hm hp]
  simp [parse_message_request, hmsg, send_message, MessageResponse.toJson]

/-- C3 witness: a concrete unexpected exception. -/
theorem C3_unexpected_degrades_witness :
    app_handle { GRADIO_HOST := "localhost", GRADIO_PORT := 7861, HTTP_PORT := 8000 }
        { method := "POST", path := "/api/message", body := { message := some "hi" } }
        (.unexpected "boom") =
      { status := 200,
        body := .obj [("success", .bool false), ("reply", .null),
                      ("error", .str "boom")] } :=
  C3_unexpected_degrades _ _ "hi" "boom" rfl rfl rfl

/-- C4: a POST /api/message request gets a 422 validation error exactly
when `message` is absent (so an empty-string message is accepted), and a
rejected request issues no outbound call and its response is independent
of the network environment. -/
theorem C4_validation_presence_only (cfg : Config) (req : HttpRequest)
    (ev : HandlerEvent) (hm : req.method = "POST")
    (hp : req.path = "/api/message") :
    ((app_handle cfg req ev).status = 422 ↔ req.body.message = none) ∧
    (req.body.message = none →
       app_trace cfg req = [] ∧
       ∀ ev₂, app_handle cfg req ev₂ = app_handle cfg req ev) := by
  cases hmsg : req.body.message with
  | none =>
      refine ⟨⟨fun _ => rfl, fun _ => ?_⟩, fun _ => ⟨?_, fun ev₂ => ?_⟩⟩
      · rw [app_handle_message cfg req ev hm hp]
        simp [parse_message_request, hmsg]
      · rw [app_trace_message cfg req hm hp]
        simp [parse_message_request, hmsg]
      · rw [app_handle_message cfg req ev hm hp,
            app_handle_message cfg req ev₂ hm hp]
        simp [parse_message_request, hmsg]
  | some m =>
      refine ⟨⟨fun h422 => absurd h422 ?_, fun h => Option.noConfusion h⟩,
              fun h => Option.noConfusion h⟩
      rw [app_handle_message cfg req ev hm hp]
      simp only [parse_message_request, hmsg]
      cases ev with
      | probe p =>
          cases p with
          | ok s =>
              by_cases hs : s = 200
              · subst hs; simp [send_message]
              · simp [send_message, hs]
          | requestException e => simp [send_message]
      | unexpected e => simp [send_message]

/-- C4 witness: a body without `message` is rejected with 422 and no
outbound call; the asymmetric conclusion is instantiated concretely. -/
theorem C4_validation_presence_only_witness :
    ((app_handle { GRADIO_HOST := "localhost", GRADIO_PORT := 7861, HTTP_PORT := 8000 }
        { method := "POST", path := "/api/message", body := { language := some "Chinese" } }
        (.probe (.ok 200))).status = 422 ↔
      ({ language := some "Chinese" } : RawBody).message = none) ∧
    app_trace { GRADIO_HOST := "localhost", GRADIO_PORT := 7861, HTTP_PORT := 8000 }
        { method := "POST", path := "/api/message", body := { language := some "Chinese" } } = [] := by
  have h := C4_validation_presence_only
    { GRADIO_HOST := "localhost", GRADIO_PORT := 7861, HTTP_PORT := 8000 }
    { method := "POST", path := "/api/message", body := { language := some "Chinese" } }
    (.probe (.ok 200)) rfl rfl
  exact ⟨h.1, (h.2 rfl).1⟩

/-- C5: with HTTP_PORT set to 9000 and WEB_PORT unset, GET /health
returns exactly the fixed status document with gradio_port 7861 and
http_port 9000, touching nothing (no outbound call). -/
theorem C5_health_fixed (env : String → Option String) (cfg : Config)
    (hc : configFromEnv env = some cfg)
    (h1 : env "HTTP_PORT" = some "9000") (h2 : env "WEB_PORT" = none)
    (b : RawBody) (ev : HandlerEvent) :
    app_handle cfg { method := "GET", path := "/health", body := b } ev =
      { status := 200,
        body := .obj [("status", .str "healthy"),
          ("service", .str "TaskMatrix API"),
          ("version", .str "1.0.0"),
          ("gradio_port", .num 7861),
          ("http_port", .num 9000)] } ∧
    app_trace cfg { method := "GET", path := "/health", body := b } = [] := by
  have hι : int_of_string "9000" = some 9000 := by decide
  simp only [configFromEnv, envInt, h1, h2, hι, Option.some.injEq] at hc
  subst hc
  exact ⟨by rw [app_handle_health _ _ _ rfl rfl]; rfl,
         app_trace_get _ _ rfl⟩

/-- C5 witness: the concrete environment with HTTP_PORT=9000. -/
theorem C5_health_fixed_witness :
    app_handle
        { GRADIO_HOST := "localhost", GRADIO_PORT := 7861, HTTP_PORT := 9000 }
        { method := "GET", path := "/health", body := {} } (.probe (.ok 200)) =
      { status := 200,
        body := .obj [("status", .str "healthy"),
          ("service", .str "TaskMatrix API"),
          ("version", .str "1.0.0"),
          ("gradio_port", .num 7861),
          ("http_port", .num 9000)] } ∧
    app_trace { GRADIO_HOST := "localhost", GRADIO_PORT := 7861, HTTP_PORT := 9000 }
        { method := "GET", path := "/health", body := {} } = [] :=
  C5_health_fixed (fun k => if k = "HTTP_PORT" then some "9000" else none)
    _ rfl rfl rfl {} (.probe (.ok 200))

/-- C6: under a fixed configuration, the responses of GET /health, GET /
and GET /info are identical across any two requests to the same route,
whatever their bodies and whatever the upstream does, and those routes
issue no outbound call. -/
theorem C6_static_deterministic (cfg : Config) (p : String)
    (hroutes : p = "/health" ∨ p = "/" ∨ p = "/info")
    (r₁ r₂ : HttpRequest) (ev₁ ev₂ : HandlerEvent)
    (hm₁ : r₁.method = "GET") (hm₂ : r₂.method = "GET")
    (hp₁ : r₁.path = p) (hp₂ : r₂.path = p) :
    app_handle cfg r₁ ev₁ = app_handle cfg r₂ ev₂ ∧
    app_trace cfg r₁ = [] := by
  refine ⟨?_, app_trace_get cfg r₁ hm₁⟩
  rcases hroutes with rfl | rfl | rfl
  · rw [app_handle_health cfg r₁ ev₁ hm₁ hp₁,
        app_handle_health cfg r₂ ev₂ hm₂ hp₂]
  · rw [app_handle_root cfg r₁ ev₁ hm₁ hp₁,
        app_handle_root cfg r₂ ev₂ hm₂ hp₂]
  · rw [app_handle_info cfg r₁ ev₁ hm₁ hp₁,
        app_handle_info cfg r₂ ev₂ hm₂ hp₂]

/-- C6 witness: two /health requests with different bodies and a
different upstream state give the same response, and no outbound call. -/
theorem C6_static_deterministic_witness :
    app_handle { GRADIO_HOST := "localhost", GRADIO_PORT := 7861, HTTP_PORT := 8000 }
        { method := "GET", path := "/health", body := { message := some "a" } }
        (.probe (.ok 200)) =
      app_handle { GRADIO_HOST := "localhost", GRADIO_PORT := 7861, HTTP_PORT := 8000 }
        { method := "GET", path := "/health", body := { language := some "b" } }
        (.probe (.requestException "down")) ∧
    app_trace { GRADIO_HOST := "localhost", GRADIO_PORT := 7861, HTTP_PORT := 8000 }
        { method := "GET", path := "/health", body := { message := some "a" } } = [] :=
  C6_static_deterministic _ "/health" (Or.inl rfl) _ _ _ _ rfl rfl rfl rfl

/-- C7: every envelope body produced by the /api/message handler has
exactly one of reply and error populated, matching the success flag. -/
theorem C7_envelope_invariant (cfg : Config) (req : MessageRequest)
    (ev : HandlerEvent) (r : MessageResponse)
    (h : send_message cfg req ev = .envelope r) :
    (r.success = true → r.reply ≠ none ∧ r.error = none) ∧
    (r.success = false → r.error ≠ none ∧ r.reply = none) := by
  cases ev with
  | probe p =>
      cases p with
      | ok s =>
          simp only [send_message] at h
          split at h
          · exact absurd h (by simp)
          · injection h with h; subst h; simp
      | requestException e =>
          simp only [send_message] at h
          exact absurd h (by simp)
  | unexpected e =>
      simp only [send_message] at h
      injection h with h; subst h; simp

/-- C7 witness: the success envelope of a reachable upstream. -/
theorem C7_envelope_invariant_witness :
    (({ success := true,
        reply := some "TaskMatrix Visual ChatGPT is running. Access the Gradio interface at http://localhost:7861",
        error := none } : MessageResponse).success = true →
      ({ success := true,
         reply := some "TaskMatrix Visual ChatGPT is running. Access the Gradio interface at http://localhost:7861",
         error := none } : MessageResponse).reply ≠ none ∧
      ({ success := true,
         reply := some "TaskMatrix Visual ChatGPT is running. Access the Gradio interface at http://localhost:7861",
         error := none } : MessageResponse).error = none) ∧
    (({ success := true,
        reply := some "TaskMatrix Visual ChatGPT is running. Access the Gradio interface at http://localhost:7861",
        error := none } : MessageResponse).success = false →
      ({ success := true,
         reply := some "TaskMatrix Visual ChatGPT is running. Access the Gradio interface at http://localhost:7861",
         error := none } : MessageResponse).error ≠ none ∧
      ({ success := true,
         reply := some "TaskMatrix Visual ChatGPT is running. Access the Gradio interface at http://localhost:7861",
         error := none } : MessageResponse).reply = none) :=
  C7_envelope_invariant
    { GRADIO_HOST := "localhost", GRADIO_PORT := 7861, HTTP_PORT := 8000 }
    { message := "hi" } (.probe (.ok 200)) _ rfl

/-- C8: omitting `language` makes the parsed request default it to
"English", and two /api/message requests identical except for `language`
get identical responses. -/
theorem C8_language_default_noninterference (cfg : Config)
    (b₁ b₂ : RawBody) (ev : HandlerEvent)
    (hmsg : b₁.message = b₂.message) :
    app_handle cfg { method := "POST", path := "/api/message", body := b₁ } ev =
      app_handle cfg { method := "POST", path := "/api/message", body := b₂ } ev ∧
    ∀ m, b₁.message = some m → b₁.language = none →
      parse_message_request b₁ = some { message := m, language := "English" } := by
  constructor
  · rw [app_handle_message cfg _ ev rfl rfl, app_handle_message cfg _ ev rfl rfl]
    cases h : b₁.message with
    | none =>
        have h₂ : b₂.message = none := hmsg.symm.trans h
        simp [parse_message_request, h, h₂]
    | some m =>
        have h₂ : b₂.message = some m := hmsg.symm.trans h
        simp only [parse_message_request, h, h₂]
        rw [send_message_ignores_request cfg
          { message := m, language := b₁.language.getD "English" }
          { message := m, language := b₂.language.getD "English" } ev]
  · intro m hm hl
    simp [parse_message_request, hm, hl]

/-- C8 witness: same message, different language values, same response. -/
theorem C8_language_default_noninterference_witness :
    app_handle { GRADIO_HOST := "localhost", GRADIO_PORT := 7861, HTTP_PORT := 8000 }
        { method := "POST", path := "/api/message", body := { message := some "hi" } }
        (.probe (.ok 200)) =
      app_handle { GRADIO_HOST := "localhost", GRADIO_PORT := 7861, HTTP_PORT := 8000 }
        { method := "POST", path := "/api/message",
          body := { message := some "hi", language := some "Chinese" } }
        (.probe (.ok 200)) ∧
    parse_message_request { message := some "hi" } =
      some { message := "hi", language := "English" } := by
  have h := C8_language_default_noninterference
    { GRADIO_HOST := "localhost", GRADIO_PORT := 7861, HTTP_PORT := 8000 }
    { message := some "hi" } { message := some "hi", language := some "Chinese" }
    (.probe (.ok 200)) rfl
  exact ⟨h.1, h.2 "hi" rfl rfl⟩

/-- C9: the /api/message handler performs exactly one outbound request,
a GET on the upstream root with timeout 5 and no payload, and the trace
is the same for every validated request (no request data reaches the
upstream, no retry ever happens). -/
theorem C9_single_probe (cfg : Config) (req : HttpRequest) (m : String)
    (hm : req.method = "POST") (hp : req.path = "/api/message")
    (hmsg : req.body.message = some m) :
    app_trace cfg req =
      [{ method := "GET", url := gradio_url cfg ++ "/", timeout := 5,
         payload := none }] ∧
    ∀ req₂ : HttpRequest, req₂.method = "POST" →
      req₂.path = "/api/message" → req₂.body.message.isSome →
      app_trace cfg req₂ = app_trace cfg req := by
  have htrace : app_trace cfg req = [probe_request cfg] := by
    rw [app_trace_message cfg req hm hp]
    simp [parse_message_request, hmsg, send_message_trace]
  refine ⟨by rw [htrace]; rfl, fun req₂ hm₂ hp₂ hsome => ?_⟩
  obtain ⟨m₂, hmsg₂⟩ := Option.isSome_iff_exists.mp hsome
  rw [app_trace_message cfg req₂ hm₂ hp₂]
  simp [parse_message_request, hmsg₂, send_message_trace, htrace]

/-- C9 witness: the concrete trace of one request. -/
theorem C9_single_probe_witness :
    app_trace { GRADIO_HOST := "localhost", GRADIO_PORT := 7861, HTTP_PORT := 8000 }
        { method := "POST", path := "/api/message", body := { message := some "hi" } } =
      [{ method := "GET", url := "http://localhost:7861/", timeout := 5,
         payload := none }] :=
  (C9_single_probe _ _ "hi" rfl rfl rfl).1

/-- C10: the probe counts the upstream as reachable only on status
exactly 200; any other status, 204 included, raises the 503 error. -/
theorem C10_only_200_reachable (cfg : Config) (req : MessageRequest)
    (s : Int) (hs : s ≠ 200) :
    send_message cfg req (.probe (.ok s)) =
      .httpError 503 "Gradio service not available" := by
  simp [send_message, hs]

/-- C10 witness: status 204, a success-family status, still yields 503. -/
theorem C10_only_200_reachable_witness :
    send_message { GRADIO_HOST := "localhost", GRADIO_PORT := 7861, HTTP_PORT := 8000 }
        { message := "hi" } (.probe (.ok 204)) =
      .httpError 503 "Gradio service not available" :=
  C10_only_200_reachable _ _ 204 (by decide)

end TaskMatrix
